import Mathlib

/-
Verification of the billing-normalization logic of invoiceAnalysis.py and
GetReccuringInvoices.py (jonghall/invoiceAnalysis).

Python floats are modelled as rationals (ℚ), Python ints as ℤ/ℕ, Python
datetimes (already converted to the Dallas timezone upstream) as a plain
calendar Date, and Python `round` as banker's rounding (round half to even).
Dictionary keys that may be absent are modelled as Option fields; a fatal
SoftLayerAPIError followed by quit() is modelled with Except.
-/

/- ---------------- Date arithmetic (calendar.monthrange, relativedelta) ---------------- -/

structure Date where
  year : Nat
  month : Nat
  day : Nat
deriving DecidableEq, Repr

/-- calendar.monthrange(y, m)[1]: number of days of month m of year y (Gregorian). -/
def daysInMonth (y m : Nat) : Nat :=
  if m = 2 then (if y % 4 = 0 ∧ (y % 100 ≠ 0 ∨ y % 400 = 0) then 29 else 28)
  else if m = 4 ∨ m = 6 ∨ m = 9 ∨ m = 11 then 30
  else 31

/-- d.replace(day=calendar.monthrange(d.year, d.month)[1]): last day of d's month. -/
def endOfMonth (d : Date) : Date :=
  ⟨d.year, d.month, daysInMonth d.year d.month⟩

/-- d + relativedelta(months=1): add one month, clamping the day to the target month. -/
def addMonths1 (d : Date) : Date :=
  if d.month = 12 then ⟨d.year + 1, 1, min d.day (daysInMonth (d.year + 1) 1)⟩
  else ⟨d.year, d.month + 1, min d.day (daysInMonth d.year (d.month + 1))⟩

/-- d - relativedelta(months=1): subtract one month, clamping the day to the target month. -/
def subMonths1 (d : Date) : Date :=
  if d.month = 1 then ⟨d.year - 1, 12, min d.day (daysInMonth (d.year - 1) 12)⟩
  else ⟨d.year, d.month - 1, min d.day (daysInMonth d.year (d.month - 1))⟩

/-- d - relativedelta(months=2), as two single-month steps (equal on valid months). -/
def subMonths2 (d : Date) : Date :=
  subMonths1 (subMonths1 d)

/-- strftime('%Y-%m') of a date (zero-padded month). -/
def formatYM (y m : Nat) : String :=
  toString y ++ "-" ++ (if m < 10 then "0" ++ toString m else toString m)

/-- invoiceAnalysis.py lines 101-105: the CFTS billing-cycle label; invoices dated
after the 19th roll into the next calendar month. -/
def getCFTSInvoiceDate (invoiceDate : Date) : String :=
  let d := if invoiceDate.day > 19 then addMonths1 invoiceDate else invoiceDate
  formatYM d.year d.month

/- ---------------- Python round (banker's rounding) ---------------- -/

/-- Python round(x): round to the nearest integer, ties going to the even integer. -/
def pyRound (q : ℚ) : ℤ :=
  let n := ⌊q⌋
  let r := q - n
  if r < 1/2 then n
  else if 1/2 < r then n + 1
  else if n % 2 = 0 then n else n + 1

/-- Python round(x, k): round to k decimal places, ties to even. -/
def pyRoundTo (k : Nat) (q : ℚ) : ℚ :=
  ((pyRound (q * (10 ^ k : ℕ)) : ℚ)) / (10 ^ k : ℕ)

/- ---------------- Raw data model (invoiceAnalysis.py) ---------------- -/

/-- A child fee record of an invoice line item (mask: children.description,
children.categoryCode, children.product, children.hourlyRecurringFee).
Optional fields model possibly-absent dictionary keys. -/
structure Child where
  categoryCode : Option String
  productDescription : String
  description : String
  hourlyRecurringFee : Option ℚ
deriving DecidableEq, Repr

/-- A top-level invoice line item as fetched by getInvoiceTopLevelItems. -/
structure LineItem where
  billingItemId : Nat
  categoryCode : String
  categoryName : String
  productDescription : String
  hostName : Option String
  domainName : Option String
  hourlyFlag : Bool
  usageChargeFlag : Bool
  totalRecurringAmount : ℚ
  totalOneTimeAmount : ℚ
  hourlyRecurringFee : Option ℚ
  children : List Child
deriving DecidableEq, Repr

/-- A raw invoice (mask: id, createDate, typeCode, invoiceTotalAmount,
invoiceTotalRecurringAmount, invoiceTopLevelItemCount); createDate is the
Dallas-local date, items the paginated top-level line items in order. -/
structure Invoice where
  id : Nat
  createDate : Date
  typeCode : String
  invoiceTotalAmount : ℚ
  invoiceTotalRecurringAmount : ℚ
  items : List LineItem
deriving DecidableEq, Repr

/-- Python str.strip(): drop leading and trailing whitespace. -/
def pyStrip (s : String) : String :=
  ⟨((s.toList.dropWhile Char.isWhitespace).reverse.dropWhile Char.isWhitespace).reverse⟩

/-- Python description.replace('\n', ' '). -/
def replaceNewlines (s : String) : String :=
  ⟨s.toList.map (fun c => if c = '\n' then ' ' else c)⟩

/-- invoiceAnalysis.py lines 84-90: first child whose categoryCode key is present
and equals the requested code yields its product description, stripped; otherwise "". -/
def getDescription (categoryCode : String) : List Child → String
  | [] => ""
  | item :: rest =>
    match item.categoryCode with
    | some c => if c = categoryCode then pyStrip item.productDescription
                else getDescription categoryCode rest
    | none => getDescription categoryCode rest

/-- invoiceAnalysis.py lines 92-98: like getDescription but returns the child's own
description field, stripped. -/
def getStorageServiceUsage (categoryCode : String) : List Child → String
  | [] => ""
  | item :: rest =>
    match item.categoryCode with
    | some c => if c = categoryCode then pyStrip item.description
                else getStorageServiceUsage categoryCode rest
    | none => getStorageServiceUsage categoryCode rest

/-- Sum of the hourlyRecurringFee of every child that carries the key
(the `for child in item["children"]` accumulation loops). -/
def childFeeSum (cs : List Child) : ℚ :=
  (cs.filterMap Child.hourlyRecurringFee).sum

/-- invoiceAnalysis.py lines 228-234: hostName '.' domainName when both present. -/
def itemHostName (it : LineItem) : String :=
  match it.hostName with
  | some h =>
    match it.domainName with
    | some dn => h ++ "." ++ dn
    | none => h
  | none => ""

/-- categoryName.find("Platform Service Plan") != -1 (substring test). -/
def pspCategory (name : String) : Bool :=
  decide (List.IsInfix ("Platform Service Plan".toList) name.toList)

/-- The mutable locals of the getInvoiceDetail loop that survive between
iterations: serviceDateStart, serviceDateEnd (never initialised; None until the
first assignment) and recurringDesc. -/
structure St where
  serviceDateStart : Option Date
  serviceDateEnd : Option Date
  recurringDesc : String
deriving DecidableEq, Repr

/-- Initial state of a getInvoiceDetail run: no service dates assigned yet. -/
def st0 : St := ⟨none, none, ""⟩

/-- invoiceAnalysis.py lines 240-264: service-period/recurring-description
assignments made while processing one line item; when no branch matches the
previous state is kept unchanged (the silent carry-over of the source). -/
def itemServiceState (invoiceType : String) (invoiceDate : Date) (st : St) (it : LineItem) : St :=
  if it.hourlyFlag then
    let sds := subMonths1 invoiceDate
    ⟨some sds, some (endOfMonth sds), "IaaS Usage"⟩
  else if pspCategory it.categoryName then
    let sds := subMonths2 invoiceDate
    ⟨some sds, some (endOfMonth sds), "Platform Service Usage"⟩
  else if invoiceType = "RECURRING" then
    ⟨some invoiceDate, some (endOfMonth invoiceDate), "IaaS Monthly"⟩
  else st

/-- invoiceAnalysis.py lines 245-253: hourly rate and hours of an hourly item.
Only when the item's own hourlyRecurringFee key is present and positive are the
children's fees added and the hours derived; otherwise both stay 0. -/
def hourlyFeeHours (it : LineItem) : ℚ × ℤ :=
  match it.hourlyRecurringFee with
  | some f =>
    if 0 < f then
      let fee := f + childFeeSum it.children
      (fee, pyRound (it.totalRecurringAmount / fee))
    else (0, 0)
  | none => (0, 0)

/-- invoiceAnalysis.py lines 282-290: the storage_as_a_service branch adds every
child's hourlyRecurringFee to the already-computed rate a second time and
recomputes the hours from the inflated rate. -/
def saasFeeHours (it : LineItem) (fee0 : ℚ) : ℚ × ℤ :=
  let fee := fee0 + childFeeSum it.children
  (fee, if 0 < fee then pyRound (it.totalRecurringAmount / fee) else 0)

/-- Final (rate, hours) of one line item: 0 for non-hourly items; hourly items
get the lines 245-253 value, further mutated by the storage_as_a_service branch. -/
def feeHours (it : LineItem) : ℚ × ℤ :=
  if it.hourlyFlag then
    let p := hourlyFeeHours it
    if it.categoryCode = "storage_as_a_service" then saasFeeHours it p.1 else p
  else (0, 0)

/-- invoiceAnalysis.py lines 268-311: category-specific description resolution. -/
def itemDescription (it : LineItem) : String :=
  if it.categoryCode = "storage_service_enterprise" then
    let iops := getDescription "storage_tier_level" it.children
    let storage := getDescription "performance_storage_space" it.children
    let snapshot := getDescription "storage_snapshot_space" it.children
    if snapshot = "" then storage ++ " " ++ iops ++ " "
    else storage ++ " " ++ iops ++ " with " ++ snapshot
  else if it.categoryCode = "performance_storage_iops" then
    let iops := getDescription "performance_storage_iops" it.children
    let storage := getDescription "performance_storage_space" it.children
    storage ++ " " ++ iops
  else if it.categoryCode = "storage_as_a_service" then
    let fsModel := if it.hourlyFlag then "Hourly" else "Monthly"
    let space := getStorageServiceUsage "performance_storage_space" it.children
    let tier := getDescription "storage_tier_level" it.children
    let snapshot := getDescription "storage_snapshot_space" it.children
    if space = "" ∨ tier = "" then fsModel ++ " File Storage"
    else if snapshot = "" then fsModel ++ " File Storage " ++ space ++ " at " ++ tier
    else fsModel ++ " File Storage " ++ space ++ " at " ++ tier ++ " with " ++
      getStorageServiceUsage "storage_snapshot_space" it.children
  else if it.categoryCode = "guest_storage" then
    let imagestorage := getStorageServiceUsage "guest_storage_usage" it.children
    if imagestorage = "" then replaceNewlines it.productDescription else imagestorage
  else replaceNewlines it.productDescription

/-- invoiceAnalysis.py lines 314-319: non-prorated monthly estimate, computed
only for NEW invoices; NewEstimatedMonthly stays 0 (line 237) otherwise. -/
def newEstimatedMonthly (invoiceType : String) (invoiceDate : Date) (recurringFee : ℚ) : ℚ :=
  if invoiceType = "NEW" then
    let dim := daysInMonth invoiceDate.year invoiceDate.month
    let daysLeft : ℤ := (dim : ℤ) - invoiceDate.day + 1
    recurringFee / (daysLeft : ℚ) * (dim : ℚ)
  else 0

/-- One row of the ledger dataframe (invoiceAnalysis.py lines 321-344). -/
structure Record where
  portalInvoiceDate : Date
  serviceDateStart : Option Date
  serviceDateEnd : Option Date
  ibmInvoiceMonth : String
  portalInvoiceNumber : Nat
  billingItemId : Nat
  hostName : String
  category : String
  description : String
  memory : String
  os : String
  hourly : Bool
  usage : Bool
  hours : ℤ
  hourlyRate : ℚ
  totalRecurringCharge : ℚ
  totalOneTimeAmount : ℚ
  newEstimatedMonthly : ℚ
  invoiceTotal : ℚ
  invoiceRecurring : ℚ
  invoiceType : String
  recurringDesc : String
deriving DecidableEq, Repr

/-- invoiceAnalysis.py lines 219-346: process one top-level line item, producing
the next loop state and the appended ledger row. -/
def processItem (invoiceType : String) (invoiceDate : Date) (invoiceID : Nat)
    (invoiceTotalAmount invoiceTotalRecurringAmount : ℚ) (cftsLabel : String)
    (st : St) (it : LineItem) : St × Record :=
  let st1 := itemServiceState invoiceType invoiceDate st it
  let fh := feeHours it
  (st1,
   { portalInvoiceDate := invoiceDate
     serviceDateStart := st1.serviceDateStart
     serviceDateEnd := st1.serviceDateEnd
     ibmInvoiceMonth := cftsLabel
     portalInvoiceNumber := invoiceID
     billingItemId := it.billingItemId
     hostName := itemHostName it
     category := it.categoryName
     description := itemDescription it
     memory := getDescription "ram" it.children
     os := getDescription "os" it.children
     hourly := it.hourlyFlag
     usage := it.usageChargeFlag
     hours := fh.2
     hourlyRate := pyRoundTo 5 fh.1
     totalRecurringCharge := pyRoundTo 3 it.totalRecurringAmount
     totalOneTimeAmount := it.totalOneTimeAmount
     newEstimatedMonthly := newEstimatedMonthly invoiceType invoiceDate it.totalRecurringAmount
     invoiceTotal := invoiceTotalAmount
     invoiceRecurring := invoiceTotalRecurringAmount
     invoiceType := invoiceType
     recurringDesc := st1.recurringDesc })

/-- invoiceAnalysis.py lines 175-346: process one invoice. A zero invoiceTotalAmount
is skipped (continue at line 177) before any line item is fetched, leaving the loop
state untouched; otherwise recurringDesc is reset, the NEW / CREDIT / ONE-TIME-CHARGE
invoice-level service periods are assigned, and every line item is appended. -/
def processInvoice (st : St) (inv : Invoice) : St × List Record :=
  if inv.invoiceTotalAmount = 0 then (st, [])
  else
    let cfts := getCFTSInvoiceDate inv.createDate
    let st1 : St := ⟨st.serviceDateStart, st.serviceDateEnd, ""⟩
    let st2 := if inv.typeCode = "NEW" then
        (⟨some inv.createDate, some (endOfMonth inv.createDate), st1.recurringDesc⟩ : St)
      else st1
    let st3 := if inv.typeCode = "CREDIT" ∨ inv.typeCode = "ONE-TIME-CHARGE" then
        (⟨some inv.createDate, some inv.createDate, st2.recurringDesc⟩ : St)
      else st2
    inv.items.foldl
      (fun acc it =>
        let pr := processItem inv.typeCode inv.createDate inv.id inv.invoiceTotalAmount
          inv.invoiceTotalRecurringAmount cfts acc.1 it
        (pr.1, acc.2 ++ [pr.2]))
      (st3, [])

/-- invoiceAnalysis.py lines 136-347: the whole normalization pass over the fetched
invoices, threading the loop state across invoices (locals are function-scoped). -/
def getInvoiceDetail (invoices : List Invoice) : List Record :=
  (invoices.foldl
    (fun acc inv =>
      let pr := processInvoice acc.1 inv
      (pr.1, acc.2 ++ pr.2))
    (st0, ([] : List Record))).2

/-- The run after the invoice fetch: a SoftLayerAPIError in getInvoiceList
(lines 131-133) or getInvoiceTopLevelItems (lines 213-215) calls quit(), so a
failed fetch yields no ledger and no report output. -/
def runReport (fetched : Except String (List Invoice)) : Except String (List Record) :=
  match fetched with
  | Except.error e => Except.error e
  | Except.ok l => Except.ok (getInvoiceDetail l)

/-- The run environment: the wall clock, read only by the CLI layer
(lines 726-738) to derive the default date range. -/
structure RunEnv where
  now : Date

/-- The normalization applied to already-fetched raw data; getInvoiceDetail
reads no clock, so the run environment does not occur in the result. -/
def normalizeRun (_env : RunEnv) (raws : List Invoice) : List Record :=
  getInvoiceDetail raws

/- ---------------- Spec-side formulas (from the claims, for comparison) ---------------- -/

/-- Modelled from the spec: the claimed effective hourly fee - the item's own
hourlyRecurringFee (when present and positive) plus the sum of every child's
hourlyRecurringFee, each contributing exactly once; 0 when the item has no
positive own fee. -/
def specEffectiveHourlyFee (it : LineItem) : ℚ :=
  match it.hourlyRecurringFee with
  | some f => if 0 < f then f + childFeeSum it.children else 0
  | none => 0

/-- Modelled from the spec: estimatedNextMonthly = (recurringCharge / daysLeft) *
daysInMonth with daysLeft = daysInMonth - day + 1 (inclusive). -/
def specNewEstimatedMonthly (recurringCharge : ℚ) (y m day : Nat) : ℚ :=
  let dim := daysInMonth y m
  let daysLeft : ℤ := (dim : ℤ) - (day : ℤ) + 1
  recurringCharge / (daysLeft : ℚ) * (dim : ℚ)

/- ---------------- GetReccuringInvoices.py model ---------------- -/

/-- Python string less-than: lexicographic on code points. -/
def strLtB : List Char → List Char → Bool
  | [], [] => false
  | [], _ :: _ => true
  | _ :: _, [] => false
  | a :: as, b :: bs =>
    if a.toNat < b.toNat then true
    else if b.toNat < a.toNat then false
    else strLtB as bs

/-- Python `a > b` on strings. -/
def pyStrGtB (a b : String) : Bool :=
  strLtB b.toList a.toList

/-- A child of a GetReccuringInvoices line item (getAssociatedChildren). -/
structure RecChild where
  recurringFee : ℚ
  hourlyRecurringFee : Option ℚ
deriving DecidableEq, Repr

/-- A top-level item of a GetReccuringInvoices invoice; the associated children
are fetched per item inside the loop. -/
structure RecItem where
  id : Nat
  hourlyRecurringFee : Option ℚ
  recurringFee : ℚ
  hostName : Option String
  domainName : String
  categoryCode : String
  children : List RecChild
deriving DecidableEq, Repr

/-- A GetReccuringInvoices invoice: getObject fetches invoiceTopLevelItems
together with the (string-typed) totals, before any zero-total check. -/
structure RecInvoice where
  id : Nat
  createDate : String
  typeCode : String
  invoiceTotalAmount : String
  invoiceTotalRecurringAmount : String
  items : List RecItem
deriving DecidableEq, Repr

/-- GetReccuringInvoices.py line 111: hours of an hourly item, from its own fee
only (children not yet accumulated at that point). -/
def recItemHours (it : RecItem) (fee : ℚ) : ℤ :=
  pyRound (it.recurringFee / fee)

/-- What one invoice iteration of GetReccuringInvoices prints. -/
structure RecReport where
  summaryLine : Bool
  hourlyLines : Nat
  hourlyTotalsLine : Bool
  hourlyAverageLine : Bool
  monthlyLines : Nat
deriving DecidableEq, Repr

/-- The report of an invoice that is skipped (non-RECURRING or failing the
string comparison guard): nothing printed. -/
def recSkipped : RecReport := ⟨false, 0, false, false, 0⟩

/-- GetReccuringInvoices.py lines 86-183: one iteration of the invoice loop.
The guard is `invoiceTotalAmount > "0"` - a lexicographic string comparison.
The hourly section iterates items carrying an hourlyRecurringFee key; after it,
line 149 divides totalHours and hourlyRecurringTotal by totalItems, raising
ZeroDivisionError (modelled as Except.error) when no such item exists, so the
monthly section is never reached. -/
def processRecInvoice (inv : RecInvoice) : Except Unit RecReport :=
  if inv.typeCode = "RECURRING" then
    if pyStrGtB inv.invoiceTotalAmount "0" then
      let hourlyItems := inv.items.filter (fun i => i.hourlyRecurringFee.isSome)
      let totalItems := hourlyItems.length
      if totalItems = 0 then Except.error ()
      else
        let monthlyItems := inv.items.filter
          (fun i => i.hourlyRecurringFee.isNone && decide (0 < i.recurringFee))
        Except.ok ⟨true, totalItems, true, true, monthlyItems.length⟩
    else Except.ok recSkipped
  else Except.ok recSkipped

/-- Split a character list on the dot character. -/
def splitOnDot : List Char → List (List Char)
  | [] => [[]]
  | c :: rest =>
    let r := splitOnDot rest
    if c = '.' then [] :: r
    else
      match r with
      | [] => [[c]]
      | h :: t => (c :: h) :: t

/-- Value of a nonempty all-digit character list, base 10. -/
def digitsVal (cs : List Char) : Option ℕ :=
  if cs ≠ [] ∧ cs.all Char.isDigit then
    some (cs.foldl (fun acc c => acc * 10 + (c.toNat - 48)) 0)
  else none

/-- Modelled from the spec: Python float() applied to the API's plain decimal
strings (optional fraction part), to connect a string amount to its value. -/
def decimalValue (s : String) : Option ℚ :=
  match splitOnDot s.toList with
  | [w] => (digitsVal w).map (fun n => (n : ℚ))
  | [w, f] =>
    match digitsVal w, digitsVal f with
    | some wn, some fn => some ((wn : ℚ) + (fn : ℚ) / ((10 : ℚ) ^ f.length))
    | _, _ => none
  | _ => none

/- ---------------- Helper lemmas ---------------- -/

lemma pyRound_zero : pyRound 0 = 0 := by
  norm_num [pyRound]

lemma pyRoundTo_zero (k : Nat) : pyRoundTo k 0 = 0 := by
  simp [pyRoundTo, pyRound_zero]

lemma processItem_snd_hours (t : String) (d : Date) (invId : Nat) (ta tra : ℚ) (cf : String)
    (st : St) (it : LineItem) :
    (processItem t d invId ta tra cf st it).2.hours = (feeHours it).2 := rfl

lemma processItem_snd_hourlyRate (t : String) (d : Date) (invId : Nat) (ta tra : ℚ) (cf : String)
    (st : St) (it : LineItem) :
    (processItem t d invId ta tra cf st it).2.hourlyRate = pyRoundTo 5 (feeHours it).1 := rfl

lemma processItem_snd_description (t : String) (d : Date) (invId : Nat) (ta tra : ℚ) (cf : String)
    (st : St) (it : LineItem) :
    (processItem t d invId ta tra cf st it).2.description = itemDescription it := rfl

lemma processItem_snd_estimate (t : String) (d : Date) (invId : Nat) (ta tra : ℚ) (cf : String)
    (st : St) (it : LineItem) :
    (processItem t d invId ta tra cf st it).2.newEstimatedMonthly
      = newEstimatedMonthly t d it.totalRecurringAmount := rfl

lemma feeHours_not_hourly (it : LineItem) (h : it.hourlyFlag = false) :
    feeHours it = (0, 0) := by
  simp [feeHours, h]

lemma hourlyFeeHours_eq_spec (it : LineItem) :
    hourlyFeeHours it
      = (specEffectiveHourlyFee it,
          pyRound (it.totalRecurringAmount / specEffectiveHourlyFee it)) := by
  unfold hourlyFeeHours specEffectiveHourlyFee
  cases h : it.hourlyRecurringFee with
  | none => simp [div_zero, pyRound_zero]
  | some f =>
    by_cases h0 : 0 < f
    · simp [h0]
    · simp [h0, div_zero, pyRound_zero]

lemma feeHours_hourly_nonsaas (it : LineItem) (h1 : it.hourlyFlag = true)
    (h2 : it.categoryCode ≠ "storage_as_a_service") :
    feeHours it
      = (specEffectiveHourlyFee it,
          pyRound (it.totalRecurringAmount / specEffectiveHourlyFee it)) := by
  simp [feeHours, h1, h2, hourlyFeeHours_eq_spec]

lemma feeHours_saas_pos (it : LineItem) (h1 : it.hourlyFlag = true)
    (h2 : it.categoryCode = "storage_as_a_service") (f : ℚ)
    (hf : it.hourlyRecurringFee = some f) (h0 : 0 < f) :
    feeHours it
      = (f + 2 * childFeeSum it.children,
          if 0 < f + 2 * childFeeSum it.children then
            pyRound (it.totalRecurringAmount / (f + 2 * childFeeSum it.children))
          else 0) := by
  have harith : f + childFeeSum it.children + childFeeSum it.children
      = f + 2 * childFeeSum it.children := by ring
  simp [feeHours, h1, h2, saasFeeHours, hourlyFeeHours, hf, h0, harith]

/- ---------------- The claims ---------------- -/

/-- C1: the billing-cycle label of an invoice timestamp is the timestamp's own
calendar month (YYYY-MM) for day <= 19 and the next calendar month for day > 19,
with December of year Y rolling to January of year Y+1; day 19 labels like day 1
of the same month and day 20 labels like day 1 of the following month. -/
theorem claim1 (y m d : Nat) :
    (d ≤ 19 → getCFTSInvoiceDate ⟨y, m, d⟩ = formatYM y m)
    ∧ (19 < d → getCFTSInvoiceDate ⟨y, m, d⟩
        = if m = 12 then formatYM (y + 1) 1 else formatYM y (m + 1))
    ∧ getCFTSInvoiceDate ⟨y, m, 19⟩ = getCFTSInvoiceDate ⟨y, m, 1⟩
    ∧ getCFTSInvoiceDate ⟨y, m, 20⟩
        = getCFTSInvoiceDate (if m = 12 then ⟨y + 1, 1, 1⟩ else ⟨y, m + 1, 1⟩) := by
  refine ⟨?_, ?_, ?_, ?_⟩
  · intro h
    simp [getCFTSInvoiceDate, Nat.not_lt.2 h]
  · intro h
    by_cases hm : m = 12 <;>
      simp [getCFTSInvoiceDate, addMonths1, h, hm]
  · simp [getCFTSInvoiceDate]
  · by_cases hm : m = 12 <;>
      simp [getCFTSInvoiceDate, addMonths1, hm]

/-- C1 witness: a December day past the cutoff rolls to January of the next year,
and a mid-month day keeps its own month. -/
theorem claim1_witness :
    getCFTSInvoiceDate ⟨2023, 12, 25⟩ = "2024-01"
    ∧ getCFTSInvoiceDate ⟨2023, 5, 7⟩ = "2023-05" := by
  have h1 := (claim1 2023 12 25).2.1 (by norm_num)
  have h2 := (claim1 2023 5 7).1 (by norm_num)
  refine ⟨?_, ?_⟩
  · rw [h1]; decide
  · rw [h2]; decide

/-- C4: for a line item on a NEW invoice the estimated next-monthly amount is
(recurringCharge / daysLeft) * daysInMonth with daysLeft = daysInMonth - day + 1
(inclusive); on invoices of any other type the estimate is 0. -/
theorem claim4 (t : String) (d : Date) (invId : Nat) (ta tra : ℚ) (cf : String)
    (st : St) (it : LineItem) :
    (t = "NEW" →
      (processItem t d invId ta tra cf st it).2.newEstimatedMonthly
        = specNewEstimatedMonthly it.totalRecurringAmount d.year d.month d.day)
    ∧ (t ≠ "NEW" →
      (processItem t d invId ta tra cf st it).2.newEstimatedMonthly = 0) := by
  constructor
  · intro h
    rw [processItem_snd_estimate]
    simp [newEstimatedMonthly, h, specNewEstimatedMonthly]
  · intro h
    rw [processItem_snd_estimate]
    simp [newEstimatedMonthly, h]

/-- C4 witness: the spec's own example - a NEW invoice dated the 25th of a 30-day
month with recurringCharge 100.00 gives daysLeft 6 and an estimate of 500.00. -/
theorem claim4_witness :
    (processItem "NEW" ⟨2021, 4, 25⟩ 5 100 100 "2021-05" st0
      { billingItemId := 9, categoryCode := "server", categoryName := "Server",
        productDescription := "Bare Metal", hostName := none, domainName := none,
        hourlyFlag := false, usageChargeFlag := false, totalRecurringAmount := 100,
        totalOneTimeAmount := 0, hourlyRecurringFee := none,
        children := [] }).2.newEstimatedMonthly = 500 := by
  have h := (claim4 "NEW" ⟨2021, 4, 25⟩ 5 100 100 "2021-05" st0
    { billingItemId := 9, categoryCode := "server", categoryName := "Server",
      productDescription := "Bare Metal", hostName := none, domainName := none,
      hourlyFlag := false, usageChargeFlag := false, totalRecurringAmount := 100,
      totalOneTimeAmount := 0, hourlyRecurringFee := none,
      children := [] }).1 rfl
  rw [h]
  norm_num [specNewEstimatedMonthly, daysInMonth]

/-- An hourly storage_as_a_service item with its own fee 1, one child fee 1/2 and
recurring charge 4; lines 284-286 add the child fee a second time. -/
def itemSaas : LineItem :=
  { billingItemId := 7, categoryCode := "storage_as_a_service",
    categoryName := "File Storage (Performance)", productDescription := "File Storage",
    hostName := none, domainName := none, hourlyFlag := true, usageChargeFlag := true,
    totalRecurringAmount := 4, totalOneTimeAmount := 0, hourlyRecurringFee := some 1,
    children := [{ categoryCode := some "performance_storage_space",
                   productDescription := "100GB", description := "100GB",
                   hourlyRecurringFee := some (1/2) }] }

/-- C2 counterexample: for the hourly storage_as_a_service item itemSaas the claim's
effective fee is 1 + 1/2 = 3/2 with hours round(4 / (3/2)) = 3, but the code doubles
the child fee (rate 2) and reports hours round(4 / 2) = 2. -/
theorem claim2_counterexample :
    (processItem "RECURRING" ⟨2021, 3, 5⟩ 1 100 100 "2021-03" st0 itemSaas).2.hourlyRate = 2
    ∧ pyRoundTo 5 (specEffectiveHourlyFee itemSaas) = 3 / 2
    ∧ (processItem "RECURRING" ⟨2021, 3, 5⟩ 1 100 100 "2021-03" st0 itemSaas).2.hours = 2
    ∧ pyRound (itemSaas.totalRecurringAmount / specEffectiveHourlyFee itemSaas) = 3
    ∧ (2 : ℚ) ≠ 3 / 2 ∧ (2 : ℤ) ≠ 3 := by
  have hfee : feeHours itemSaas = (2, 2) := by
    rw [feeHours_saas_pos itemSaas rfl rfl 1 rfl (by norm_num)]
    have hc : childFeeSum itemSaas.children = 1 / 2 := by
      norm_num [childFeeSum, itemSaas, List.filterMap]
    rw [hc]
    norm_num [pyRound, itemSaas, Int.fract]
  refine ⟨?_, ?_, ?_, ?_, by norm_num, by norm_num⟩
  · rw [processItem_snd_hourlyRate, hfee]
    norm_num [pyRoundTo, pyRound]
  · have hs : specEffectiveHourlyFee itemSaas = 3 / 2 := by
      norm_num [specEffectiveHourlyFee, itemSaas, childFeeSum, List.filterMap]
    rw [hs]
    norm_num [pyRoundTo, pyRound]
  · rw [processItem_snd_hours, hfee]
  · have hs : specEffectiveHourlyFee itemSaas = 3 / 2 := by
      norm_num [specEffectiveHourlyFee, itemSaas, childFeeSum, List.filterMap]
    rw [hs]
    norm_num [itemSaas, pyRound]

/-- C2 amended: for every hourly line item of any category other than
storage_as_a_service the reported rate is the claimed effective fee (own positive
fee plus each child's fee once, 0 otherwise) rounded to 5 places and the hours are
round(recurringCharge / effectiveFee); non-hourly items report rate 0 and hours 0;
but for an hourly storage_as_a_service item with a positive own fee the code adds
every child's fee twice, so the rate is own + 2 * (sum of child fees). -/
theorem claim2_amended (t : String) (d : Date) (invId : Nat) (ta tra : ℚ) (cf : String)
    (st : St) (it : LineItem) :
    (it.hourlyFlag = true → it.categoryCode ≠ "storage_as_a_service" →
      (processItem t d invId ta tra cf st it).2.hourlyRate
          = pyRoundTo 5 (specEffectiveHourlyFee it)
      ∧ (processItem t d invId ta tra cf st it).2.hours
          = pyRound (it.totalRecurringAmount / specEffectiveHourlyFee it))
    ∧ (it.hourlyFlag = false →
      (processItem t d invId ta tra cf st it).2.hourlyRate = 0
      ∧ (processItem t d invId ta tra cf st it).2.hours = 0)
    ∧ (it.hourlyFlag = true → it.categoryCode = "storage_as_a_service" →
      ∀ f, it.hourlyRecurringFee = some f → 0 < f →
        (processItem t d invId ta tra cf st it).2.hourlyRate
          = pyRoundTo 5 (f + 2 * childFeeSum it.children)) := by
  refine ⟨?_, ?_, ?_⟩
  · intro h1 h2
    rw [processItem_snd_hourlyRate, processItem_snd_hours, feeHours_hourly_nonsaas it h1 h2]
    exact ⟨rfl, rfl⟩
  · intro h
    rw [processItem_snd_hourlyRate, processItem_snd_hours, feeHours_not_hourly it h]
    simp [pyRoundTo_zero]
  · intro h1 h2 f hf h0
    rw [processItem_snd_hourlyRate, feeHours_saas_pos it h1 h2 f hf h0]

/-- C2 witness: an ordinary hourly item with own fee 1, child fee 1/2 and recurring
charge 46 reports rate 3/2 and hours round(46 / 1.5) = 31 (the spec's example). -/
theorem claim2_amended_witness :
    (processItem "RECURRING" ⟨2021, 3, 5⟩ 2 100 100 "2021-03" st0
      { billingItemId := 8, categoryCode := "guest_core", categoryName := "Computing Instance",
        productDescription := "4 x 2.0 GHz", hostName := some "vsi1",
        domainName := some "example.com", hourlyFlag := true, usageChargeFlag := false,
        totalRecurringAmount := 46, totalOneTimeAmount := 0, hourlyRecurringFee := some 1,
        children := [{ categoryCode := some "ram", productDescription := "8 GB",
                       description := "8 GB", hourlyRecurringFee := some (1/2) }] }).2.hours
      = 31 := by
  have h := ((claim2_amended "RECURRING" ⟨2021, 3, 5⟩ 2 100 100 "2021-03" st0
    { billingItemId := 8, categoryCode := "guest_core", categoryName := "Computing Instance",
      productDescription := "4 x 2.0 GHz", hostName := some "vsi1",
      domainName := some "example.com", hourlyFlag := true, usageChargeFlag := false,
      totalRecurringAmount := 46, totalOneTimeAmount := 0, hourlyRecurringFee := some 1,
      children := [{ categoryCode := some "ram", productDescription := "8 GB",
                     description := "8 GB", hourlyRecurringFee := some (1/2) }] }).1
    rfl (by decide)).2
  rw [h]
  have hs : specEffectiveHourlyFee
      { billingItemId := 8, categoryCode := "guest_core", categoryName := "Computing Instance",
        productDescription := "4 x 2.0 GHz", hostName := some "vsi1",
        domainName := some "example.com", hourlyFlag := true, usageChargeFlag := false,
        totalRecurringAmount := 46, totalOneTimeAmount := 0, hourlyRecurringFee := some 1,
        children := [{ categoryCode := some "ram", productDescription := "8 GB",
                       description := "8 GB", hourlyRecurringFee := some (1/2) }] }
      = 3 / 2 := by
    norm_num [specEffectiveHourlyFee, childFeeSum, List.filterMap]
  rw [hs]
  norm_num [pyRound]

/-- C6: a storage_service_enterprise line item is described as the storage-space
child text, a space, the tier child text and a trailing space when no snapshot
child exists, and as storage + " " + tier + " with " + snapshot otherwise. -/
theorem claim6 (t : String) (d : Date) (invId : Nat) (ta tra : ℚ) (cf : String)
    (st : St) (it : LineItem) (hc : it.categoryCode = "storage_service_enterprise") :
    (getDescription "storage_snapshot_space" it.children = "" →
      (processItem t d invId ta tra cf st it).2.description
        = getDescription "performance_storage_space" it.children ++ " "
          ++ getDescription "storage_tier_level" it.children ++ " ")
    ∧ (getDescription "storage_snapshot_space" it.children ≠ "" →
      (processItem t d invId ta tra cf st it).2.description
        = getDescription "performance_storage_space" it.children ++ " "
          ++ getDescription "storage_tier_level" it.children ++ " with "
          ++ getDescription "storage_snapshot_space" it.children) := by
  constructor
  · intro h
    rw [processItem_snd_description]
    simp [itemDescription, hc, h]
  · intro h
    rw [processItem_snd_description]
    simp [itemDescription, hc, h]

/-- Children of the C6 witness items: 1000GB storage and Tier 1, without and
with a 200GB snapshot child. -/
def entChildren : List Child :=
  [{ categoryCode := some "performance_storage_space", productDescription := "1000GB",
     description := "1000GB", hourlyRecurringFee := none },
   { categoryCode := some "storage_tier_level", productDescription := "Tier 1",
     description := "Tier 1", hourlyRecurringFee := none }]

/-- The C6 witness items: enterprise storage without and with a snapshot child. -/
def itemEnt1 : LineItem :=
  { billingItemId := 21, categoryCode := "storage_service_enterprise",
    categoryName := "Endurance", productDescription := "Endurance Storage",
    hostName := none, domainName := none, hourlyFlag := false, usageChargeFlag := false,
    totalRecurringAmount := 50, totalOneTimeAmount := 0, hourlyRecurringFee := none,
    children := entChildren }

def itemEnt2 : LineItem :=
  { itemEnt1 with
    billingItemId := 22,
    children := entChildren ++
      [{ categoryCode := some "storage_snapshot_space", productDescription := "200GB",
         description := "200GB", hourlyRecurringFee := none }] }

/-- C6 witness: the spec's examples - "1000GB Tier 1 " (trailing space) without a
snapshot child and "1000GB Tier 1 with 200GB" with one. -/
theorem claim6_witness :
    (processItem "RECURRING" ⟨2021, 3, 5⟩ 4 100 100 "2021-03" st0 itemEnt1).2.description
        = "1000GB Tier 1 "
    ∧ (processItem "RECURRING" ⟨2021, 3, 5⟩ 4 100 100 "2021-03" st0 itemEnt2).2.description
        = "1000GB Tier 1 with 200GB" := by
  have h1 := (claim6 "RECURRING" ⟨2021, 3, 5⟩ 4 100 100 "2021-03" st0 itemEnt1 rfl).1
    (by decide)
  have h2 := (claim6 "RECURRING" ⟨2021, 3, 5⟩ 4 100 100 "2021-03" st0 itemEnt2 rfl).2
    (by decide)
  refine ⟨?_, ?_⟩
  · rw [h1]; decide
  · rw [h2]; decide

/-- A line item for the C7 witness: hourly but with no hourlyRecurringFee key. -/
def itemNoFee : LineItem :=
  { billingItemId := 31, categoryCode := "guest_core", categoryName := "Computing Instance",
    productDescription := "2 x 2.0 GHz", hostName := none, domainName := none,
    hourlyFlag := true, usageChargeFlag := false, totalRecurringAmount := 12,
    totalOneTimeAmount := 0, hourlyRecurringFee := none, children := [] }

/-- C7: a missing or partially-missing field degrades to an empty description
fragment or a zero value (a child lookup over children without the requested
category code yields "", and an hourly item without the hourlyRecurringFee key
reports hours 0 and rate 0), while a billing API request failure is fatal: the
run halts and produces no ledger rows. -/
theorem claim7 :
    (∀ (code : String) (cs : List Child),
        (∀ c ∈ cs, c.categoryCode ≠ some code) → getDescription code cs = "")
    ∧ (∀ (code : String) (cs : List Child),
        (∀ c ∈ cs, c.categoryCode ≠ some code) → getStorageServiceUsage code cs = "")
    ∧ (∀ e : String, runReport (Except.error e) = Except.error e)
    ∧ (∀ (t : String) (d : Date) (invId : Nat) (ta tra : ℚ) (cf : String) (st : St)
        (it : LineItem), it.hourlyFlag = true → it.hourlyRecurringFee = none →
        it.categoryCode ≠ "storage_as_a_service" →
        (processItem t d invId ta tra cf st it).2.hours = 0
        ∧ (processItem t d invId ta tra cf st it).2.hourlyRate = 0) := by
  refine ⟨?_, ?_, ?_, ?_⟩
  · intro code cs
    induction cs with
    | nil => intro _; rfl
    | cons c rest ih =>
      intro h
      have hc := h c (List.mem_cons_self c rest)
      have hrest : ∀ x ∈ rest, x.categoryCode ≠ some code :=
        fun x hx => h x (List.mem_cons_of_mem c hx)
      cases hcc : c.categoryCode with
      | none => simp [getDescription, hcc, ih hrest]
      | some s =>
        have hs : s ≠ code := by
          intro e
          exact hc (by rw [hcc, e])
        simp [getDescription, hcc, hs, ih hrest]
  · intro code cs
    induction cs with
    | nil => intro _; rfl
    | cons c rest ih =>
      intro h
      have hc := h c (List.mem_cons_self c rest)
      have hrest : ∀ x ∈ rest, x.categoryCode ≠ some code :=
        fun x hx => h x (List.mem_cons_of_mem c hx)
      cases hcc : c.categoryCode with
      | none => simp [getStorageServiceUsage, hcc, ih hrest]
      | some s =>
        have hs : s ≠ code := by
          intro e
          exact hc (by rw [hcc, e])
        simp [getStorageServiceUsage, hcc, hs, ih hrest]
  · intro e
    rfl
  · intro t d invId ta tra cf st it h1 h2 h3
    rw [processItem_snd_hours, processItem_snd_hourlyRate, feeHours_hourly_nonsaas it h1 h3]
    simp [specEffectiveHourlyFee, h2, div_zero, pyRound_zero, pyRoundTo_zero]

/-- C7 witness: a ram lookup over children without a ram child yields "", a failed
fetch propagates as a fatal error with no rows, and itemNoFee reports 0 hours. -/
theorem claim7_witness :
    getDescription "ram"
      [{ categoryCode := some "os", productDescription := "CentOS",
         description := "CentOS", hourlyRecurringFee := none }] = ""
    ∧ runReport (Except.error "SoftLayer_Exception_InvalidApiToken")
        = Except.error "SoftLayer_Exception_InvalidApiToken"
    ∧ (processItem "RECURRING" ⟨2021, 3, 5⟩ 6 10 10 "2021-03" st0 itemNoFee).2.hours = 0 := by
  refine ⟨claim7.1 "ram" _ ?_, claim7.2.2.1 _,
    (claim7.2.2.2 "RECURRING" ⟨2021, 3, 5⟩ 6 10 10 "2021-03" st0 itemNoFee rfl rfl
      (by decide)).1⟩
  intro c hcm
  have : c = { categoryCode := some "os", productDescription := "CentOS",
               description := "CentOS", hourlyRecurringFee := none } := by
    simpa using hcm
  rw [this]
  decide

/-- First item of the C3 invoice: hourly, so it assigns the previous-month
service period (2021-02-15 .. 2021-02-28). -/
def itemHourlyC3 : LineItem :=
  { billingItemId := 11, categoryCode := "guest_core", categoryName := "Computing Instance",
    productDescription := "4 x 2.0 GHz", hostName := some "vsi1",
    domainName := some "example.com", hourlyFlag := true, usageChargeFlag := false,
    totalRecurringAmount := 10, totalOneTimeAmount := 0, hourlyRecurringFee := some 1,
    children := [] }

/-- Second item of the C3 invoice: non-hourly, not a Platform Service Plan
category; on a NEW invoice no item-level service-period rule fires for it. -/
def itemPlainC3 : LineItem :=
  { billingItemId := 12, categoryCode := "server", categoryName := "Server",
    productDescription := "Bare Metal", hostName := none, domainName := none,
    hourlyFlag := false, usageChargeFlag := false, totalRecurringAmount := 20,
    totalOneTimeAmount := 0, hourlyRecurringFee := none, children := [] }

/-- The C3 failing input: a NEW invoice dated 2021-03-15 whose first line item is
hourly and whose second is a plain monthly item. -/
def invC3 : Invoice :=
  { id := 777, createDate := ⟨2021, 3, 15⟩, typeCode := "NEW",
    invoiceTotalAmount := 30, invoiceTotalRecurringAmount := 30,
    items := [itemHourlyC3, itemPlainC3] }

/-- C3: evaluation at the failing input. The NEW invoice-level rule assigns
2021-03-15 .. 2021-03-31, the hourly first item overwrites the loop locals with
the previous month, and the plain second item - for which no item-level rule
fires - silently inherits the first item's dates: its record carries service
period 2021-02-15 .. 2021-02-28 instead of a null/unset period, contradicting
the claim's no-stale-carry-over requirement. -/
theorem claim3_evaluation :
    (getInvoiceDetail [invC3]).map Record.serviceDateStart
        = [some ⟨2021, 2, 15⟩, some ⟨2021, 2, 15⟩]
    ∧ (getInvoiceDetail [invC3]).map Record.serviceDateEnd
        = [some ⟨2021, 2, 28⟩, some ⟨2021, 2, 28⟩]
    ∧ invC3.createDate = ⟨2021, 3, 15⟩
    ∧ (some (⟨2021, 2, 15⟩ : Date) : Option Date) ≠ some invC3.createDate := by
  refine ⟨?_, ?_, rfl, by decide⟩ <;>
    norm_num [getInvoiceDetail, processInvoice, processItem, itemServiceState, invC3,
      itemHourlyC3, itemPlainC3, st0, subMonths1, endOfMonth, daysInMonth,
      show pspCategory "Server" = false from by decide,
      show ("NEW" = "RECURRING") = False from by decide]

/-- The C5 counterexample invoice of GetReccuringInvoices: a RECURRING invoice
whose total amount string "0.00" denotes zero but compares greater than "0"
lexicographically; it carries one hourly line item. -/
def recInvZero : RecInvoice :=
  { id := 4321, createDate := "2021-03-01T00:00:00-06:00", typeCode := "RECURRING",
    invoiceTotalAmount := "0.00", invoiceTotalRecurringAmount := "0.00",
    items := [{ id := 1, hourlyRecurringFee := some 1, recurringFee := 2,
                hostName := none, domainName := "", categoryCode := "guest_core",
                children := [] }] }

/-- C5 counterexample: recInvZero's total amount equals zero, yet
GetReccuringInvoices processes it (the guard is the string comparison
invoiceTotalAmount > "0", and "0.00" > "0" lexicographically) and prints its
summary line, one hourly detail line and the hourly totals - report lines for a
zero-total invoice, whose line items were fetched with the invoice object. -/
theorem claim5_counterexample :
    decimalValue recInvZero.invoiceTotalAmount = some 0
    ∧ pyStrGtB recInvZero.invoiceTotalAmount "0" = true
    ∧ processRecInvoice recInvZero
        = Except.ok { summaryLine := true, hourlyLines := 1, hourlyTotalsLine := true,
                      hourlyAverageLine := true, monthlyLines := 0 }
    ∧ ({ summaryLine := true, hourlyLines := 1, hourlyTotalsLine := true,
         hourlyAverageLine := true, monthlyLines := 0 } : RecReport) ≠ recSkipped := by
  refine ⟨?_, by decide, ?_, by decide⟩
  · show decimalValue "0.00" = some 0
    simp only [decimalValue,
      show splitOnDot "0.00".toList = [['0'], ['0', '0']] from by decide,
      show digitsVal ['0'] = some 0 from by decide,
      show digitsVal ['0', '0'] = some 0 from by decide]
    norm_num
  · norm_num [processRecInvoice, recInvZero,
      show pyStrGtB "0.00" "0" = true from by decide]

/-- C5 amended: in invoiceAnalysis a zero-total invoice produces no ledger rows
and leaves the loop state untouched (skipped before its line items are fetched);
in GetReccuringInvoices the guard is the lexicographic string comparison
invoiceTotalAmount > "0", and only an invoice failing that comparison is skipped
with no report lines (its line items having been fetched with the invoice either
way); a zero amount rendered as "0.00" passes the guard (claim5_counterexample). -/
theorem claim5_amended :
    (∀ (st : St) (inv : Invoice), inv.invoiceTotalAmount = 0 →
        processInvoice st inv = (st, []))
    ∧ (∀ rinv : RecInvoice, rinv.typeCode = "RECURRING" →
        pyStrGtB rinv.invoiceTotalAmount "0" = false →
        processRecInvoice rinv = Except.ok recSkipped) := by
  constructor
  · intro st inv h
    simp [processInvoice, h]
  · intro rinv h1 h2
    simp [processRecInvoice, h1, h2]

/-- C5 witness: an invoiceAnalysis invoice with total 0 yields no rows, and a
GetReccuringInvoices invoice whose amount string is exactly "0" is skipped. -/
theorem claim5_amended_witness :
    processInvoice st0
      { id := 9, createDate := ⟨2021, 3, 1⟩, typeCode := "RECURRING",
        invoiceTotalAmount := 0, invoiceTotalRecurringAmount := 0, items := [] }
      = (st0, [])
    ∧ processRecInvoice
        { id := 10, createDate := "2021-03-01T00:00:00-06:00", typeCode := "RECURRING",
          invoiceTotalAmount := "0", invoiceTotalRecurringAmount := "0", items := [] }
      = Except.ok recSkipped :=
  ⟨claim5_amended.1 st0 _ rfl, claim5_amended.2 _ rfl (by decide)⟩

/-- C9: the normalization is a pure function of the fetched raw data - the run
environment (in particular the wall clock, which only the CLI layer reads to
build the default date range) does not influence any normalized record, so two
runs over the same raw data produce identical ledgers. -/
theorem claim9 (e1 e2 : RunEnv) (raws : List Invoice) :
    normalizeRun e1 raws = normalizeRun e2 raws := rfl

/-- C10: a RECURRING invoice that passes the string-comparison total guard but
has no top-level item carrying an hourlyRecurringFee key makes the hourly
summary divide by totalItems = 0: the iteration fails with a division-by-zero
error and the monthly section is never printed. -/
theorem claim10 (inv : RecInvoice) (h1 : inv.typeCode = "RECURRING")
    (h2 : pyStrGtB inv.invoiceTotalAmount "0" = true)
    (h3 : (inv.items.filter (fun i => i.hourlyRecurringFee.isSome)).length = 0) :
    processRecInvoice inv = Except.error () := by
  simp [processRecInvoice, h1, h2, h3]

/-- C10 witness: a RECURRING invoice with a positive total and a single
monthly-only line item crashes with the division-by-zero error. -/
theorem claim10_witness :
    processRecInvoice
      { id := 55, createDate := "2021-03-01T00:00:00-06:00", typeCode := "RECURRING",
        invoiceTotalAmount := "125.00", invoiceTotalRecurringAmount := "125.00",
        items := [{ id := 2, hourlyRecurringFee := none, recurringFee := 125,
                    hostName := none, domainName := "", categoryCode := "server",
                    children := [] }] }
      = Except.error () :=
  claim10 _ rfl (by decide) (by decide)

/- ---------------- Aggregator (createReport, lines 369-384) ---------------- -/

/-- createReport line 369: the summed amount of a ledger row is
totalOneTimeAmount + totalRecurringCharge. -/
def rowAmount (r : Record) : ℚ :=
  r.totalOneTimeAmount + r.totalRecurringCharge

/-- createReport line 374: the ledger rows of one billing-cycle label. -/
def cycleRows (rows : List Record) (m : String) : List Record :=
  rows.filter fun r => decide (r.ibmInvoiceMonth = m)

/-- The rows of one invoice type within a list of rows. -/
def typeRows (rows : List Record) (t : String) : List Record :=
  rows.filter fun r => decide (r.invoiceType = t)

/-- The summed amount of one invoice's rows within a list of rows. -/
def invoiceGroupSum (rows : List Record) (i : Nat) : ℚ :=
  ((rows.filter fun r => decide (r.portalInvoiceNumber = i)).map rowAmount).sum

/-- createReport lines 375-380: the subtotal of one invoice type - the per-invoice
group sums of that type's rows, added up over the distinct invoice numbers. -/
def typeSubtotal (rows : List Record) (t : String) : ℚ :=
  (((typeRows rows t).map Record.portalInvoiceNumber).dedup.map
    (fun i => invoiceGroupSum (typeRows rows t) i)).sum

/-- createReport line 380: the grand total of a cycle's top sheet - the per-type
subtotals added up over the distinct invoice types. -/
def groupedGrandTotal (rows : List Record) (m : String) : ℚ :=
  (((cycleRows rows m).map Record.invoiceType).dedup.map
    (fun t => typeSubtotal (cycleRows rows m) t)).sum

/-- The flat sum of the amounts of all ledger rows of one cycle label. -/
def flatCycleTotal (rows : List Record) (m : String) : ℚ :=
  ((cycleRows rows m).map rowAmount).sum

lemma list_sum_map_add {α : Type} (g h : α → ℚ) (l : List α) :
    (l.map fun x => g x + h x).sum = (l.map g).sum + (l.map h).sum := by
  induction l with
  | nil => simp
  | cons a l ih => simp [ih]; ring

lemma sum_map_ite_zero {κ : Type} [DecidableEq κ] (k0 : κ) (c : ℚ) :
    ∀ ks : List κ, k0 ∉ ks → (ks.map fun k => if k0 = k then c else 0).sum = 0 := by
  intro ks
  induction ks with
  | nil => intro _; rfl
  | cons a l ih =>
    intro h
    simp only [List.mem_cons, not_or] at h
    simp [if_neg h.1, ih h.2]

lemma sum_map_ite_single {κ : Type} [DecidableEq κ] (k0 : κ) (c : ℚ) :
    ∀ ks : List κ, ks.Nodup → k0 ∈ ks → (ks.map fun k => if k0 = k then c else 0).sum = c := by
  intro ks
  induction ks with
  | nil => intro _ h; cases h
  | cons a l ih =>
    intro hnd hmem
    rw [List.map_cons, List.sum_cons]
    rcases List.mem_cons.1 hmem with he | hm
    · rw [if_pos he, sum_map_ite_zero k0 c l (by rw [he]; exact (List.nodup_cons.1 hnd).1),
        add_zero]
    · have hne : k0 ≠ a := by
        intro e
        exact (List.nodup_cons.1 hnd).1 (e ▸ hm)
      rw [if_neg hne, ih (List.nodup_cons.1 hnd).2 hm, zero_add]

/-- Splitting a list into its fibers along a key and summing fiber by fiber gives
the flat sum, provided the key list is duplicate-free and covers every element. -/
lemma sum_filter_partition {α κ : Type} [DecidableEq κ] (key : α → κ) (f : α → ℚ) :
    ∀ (l : List α) (ks : List κ), ks.Nodup → (∀ x ∈ l, key x ∈ ks) →
      (ks.map fun k => ((l.filter fun x => decide (key x = k)).map f).sum).sum
        = (l.map f).sum := by
  intro l
  induction l with
  | nil =>
    intro ks _ _
    simp
  | cons x l ih =>
    intro ks hnd hcov
    have hx : key x ∈ ks := hcov x (List.mem_cons_self x l)
    have hcov2 : ∀ y ∈ l, key y ∈ ks := fun y hy => hcov y (List.mem_cons_of_mem x hy)
    have hstep : (ks.map fun k => (((x :: l).filter fun y => decide (key y = k)).map f).sum)
        = ks.map fun k =>
            (if key x = k then f x else 0) + ((l.filter fun y => decide (key y = k)).map f).sum := by
      apply List.map_congr_left
      intro k _
      by_cases h : key x = k
      · simp [List.filter_cons, h]
      · simp [List.filter_cons, h]
    rw [hstep, list_sum_map_add, sum_map_ite_single (key x) (f x) ks hnd hx, ih ks hnd hcov2,
      List.map_cons, List.sum_cons]

/-- C8: for every billing-cycle label, summing recurringCharge + oneTimeCharge per
(invoice type, invoice) group, subtotalling per invoice type and adding the
subtotals reconciles with the single flat sum over all ledger rows of that cycle. -/
theorem claim8 (rows : List Record) (m : String) :
    groupedGrandTotal rows m = flatCycleTotal rows m := by
  have inner : ∀ (l : List Record) (t : String),
      typeSubtotal l t = ((typeRows l t).map rowAmount).sum := by
    intro l t
    exact sum_filter_partition Record.portalInvoiceNumber rowAmount (typeRows l t) _
      (List.nodup_dedup _) (fun x hx => List.mem_dedup.2 (List.mem_map_of_mem _ hx))
  unfold groupedGrandTotal flatCycleTotal
  calc (((cycleRows rows m).map Record.invoiceType).dedup.map
          (fun t => typeSubtotal (cycleRows rows m) t)).sum
      = (((cycleRows rows m).map Record.invoiceType).dedup.map
          (fun t => ((typeRows (cycleRows rows m) t).map rowAmount).sum)).sum := by
        exact congrArg List.sum (List.map_congr_left (fun t _ => inner (cycleRows rows m) t))
    _ = ((cycleRows rows m).map rowAmount).sum :=
        sum_filter_partition Record.invoiceType rowAmount (cycleRows rows m) _
          (List.nodup_dedup _) (fun x hx => List.mem_dedup.2 (List.mem_map_of_mem _ hx))
